import Mathlib

/-!
Verification of the conformity-analysis pipeline of the PDFANALYZE repository.

The embedding models, from `analyzer.py`, `config.py` and `app.py`:
  * the JSON values exchanged with the model (Python `json.loads` output),
  * the response cleaning in `TechnicalDocumentAnalyzer.analyze`
    (markdown code-fence stripping, lines 161-169),
  * the post-parse validation and the error branches of `analyze`,
  * `TechnicalDocumentAnalyzer.compare_documents`,
  * `BatchAnalyzer.analyze_multiple` and `BatchAnalyzer.generate_batch_report`,
  * the OCR phase of `render_batch_analysis` in `app.py`,
  * the template data model of `config.py` with `TEMPLATE_CHIMIE`.

Python strings are modelled as `List Char`; Python dicts resulting from
`json.loads` as association lists inside the `Json` type.
-/

set_option maxRecDepth 100000

namespace PdfAnalyze

/-- JSON values, as produced by Python's `json.loads` on the payloads this
program exchanges.  Numbers are restricted to integers: every numeric field of
the response schema (`total_points`, `conforme`, ...) is integral. -/
inductive Json where
  | null
  | bool (b : Bool)
  | num (n : Int)
  | str (s : String)
  | arr (elems : List Json)
  | obj (fields : List (String × Json))

mutual

/-- Structural equality on JSON values, modelling Python `==` / `!=` on the
values `json.loads` produces (object comparison is field-order-sensitive
here; the code only ever compares leaf values, where the two coincide). -/
def Json.beq : Json → Json → Bool
  | .null, .null => true
  | .bool a, .bool b => a == b
  | .num a, .num b => a == b
  | .str a, .str b => a == b
  | .arr a, .arr b => Json.beqList a b
  | .obj a, .obj b => Json.beqFields a b
  | _, _ => false

/-- Elementwise `Json.beq` on lists. -/
def Json.beqList : List Json → List Json → Bool
  | [], [] => true
  | a :: as, b :: bs => Json.beq a b && Json.beqList as bs
  | _, _ => false

/-- Elementwise `Json.beq` on association lists. -/
def Json.beqFields : List (String × Json) → List (String × Json) → Bool
  | [], [] => true
  | (k, v) :: as, (k', v') :: bs => k == k' && Json.beq v v' && Json.beqFields as bs
  | _, _ => false

end

instance : BEq Json := ⟨Json.beq⟩

/-- `d.get k`: Python `d.get(k)` on a dict; `none` on a missing key.
Only ever applied to `Json.obj` values in the model, mirroring the places
where the Python code has a dict in hand. -/
def Json.get : Json → String → Option Json
  | .obj fields, k => (fields.find? (fun kv => kv.1 == k)).map (·.2)
  | _, _ => none

/-- The string value of field `k`, when the field exists and holds a string. -/
def Json.getStr (j : Json) (k : String) : Option String :=
  match j.get k with
  | some (.str s) => some s
  | _ => none

/-- The integer value of field `k`, when the field exists and holds a number. -/
def Json.getNum (j : Json) (k : String) : Option Int :=
  match j.get k with
  | some (.num n) => some n
  | _ => none

/-- The element list of field `k`, when the field exists and holds an array. -/
def Json.getArr (j : Json) (k : String) : Option (List Json) :=
  match j.get k with
  | some (.arr xs) => some xs
  | _ => none

/-- Python `k in d` on a dict. -/
def Json.hasKey (j : Json) (k : String) : Bool :=
  (j.get k).isSome

/-- Replace-or-append assignment on an association list (Python dict update). -/
def setField : List (String × Json) → String → Json → List (String × Json)
  | [], k, v => [(k, v)]
  | (k', v') :: rest, k, v =>
    if k' == k then (k, v) :: rest else (k', v') :: setField rest k v

/-- Python `d[k] = v` on a dict; a no-op on non-dict values (the Python code
only assigns into values it has dict access to). -/
def Json.set : Json → String → Json → Json
  | .obj fields, k, v => .obj (setField fields k v)
  | j, _, _ => j

/-! ## Python string helpers, over `List Char` -/

/-- The whitespace characters `str.strip()` removes (ASCII fragment; the
payloads contain no exotic Unicode whitespace). -/
def isPySpace (c : Char) : Bool :=
  c == ' ' || c == '\t' || c == '\n' || c == '\r' || c == '\x0b' || c == '\x0c'

/-- Strip leading whitespace (`str.lstrip()`). -/
def lstrip (cs : List Char) : List Char := cs.dropWhile isPySpace

/-- Strip trailing whitespace (`str.rstrip()`). -/
def rstrip (cs : List Char) : List Char :=
  (cs.reverse.dropWhile isPySpace).reverse

/-- Python `str.strip()`. -/
def pyStrip (cs : List Char) : List Char := rstrip (lstrip cs)

/-- Python `str.startswith(pre)`. -/
def pyStartsWith (pre cs : List Char) : Bool := pre.isPrefixOf cs

/-- Python `str.endswith(suf)`. -/
def pyEndsWith (suf cs : List Char) : Bool := suf.reverse.isPrefixOf cs.reverse

/-! ## A model of Python's `json.loads`

Restricted to the JSON fragment this program exchanges: objects, arrays,
strings (with the common escapes), integer numbers, `true`/`false`/`null`.
Python raises `json.JSONDecodeError` exactly where this model returns
`.error`; in particular an input whose first non-whitespace character cannot
start a JSON value fails with "Expecting value", and trailing non-whitespace
after a complete value fails with "Extra data". -/

/-- Decimal digits to a natural number. -/
def digitsToNat (cs : List Char) : Nat :=
  cs.foldl (fun n c => 10 * n + (c.toNat - 48)) 0

/-- Parse the body of a JSON string after the opening quote; returns the
decoded characters and the rest of the input past the closing quote. -/
def parseStringBody : Nat → List Char → Except String (List Char × List Char)
  | 0, _ => .error "Unterminated string"
  | _, [] => .error "Unterminated string"
  | fuel + 1, c :: rest =>
    if c == '"' then .ok ([], rest)
    else if c == '\\' then
      match rest with
      | '"' :: rest' =>
        match parseStringBody fuel rest' with
        | .ok (body, rem) => .ok ('"' :: body, rem)
        | .error e => .error e
      | '\\' :: rest' =>
        match parseStringBody fuel rest' with
        | .ok (body, rem) => .ok ('\\' :: body, rem)
        | .error e => .error e
      | 'n' :: rest' =>
        match parseStringBody fuel rest' with
        | .ok (body, rem) => .ok ('\n' :: body, rem)
        | .error e => .error e
      | 't' :: rest' =>
        match parseStringBody fuel rest' with
        | .ok (body, rem) => .ok ('\t' :: body, rem)
        | .error e => .error e
      | '/' :: rest' =>
        match parseStringBody fuel rest' with
        | .ok (body, rem) => .ok ('/' :: body, rem)
        | .error e => .error e
      | _ => .error "Invalid escape"
    else
      match parseStringBody fuel rest with
      | .ok (body, rem) => .ok (c :: body, rem)
      | .error e => .error e

/-- Parse an integer JSON number starting at a digit or a minus sign. -/
def parseNumber (cs : List Char) : Except String (Json × List Char) :=
  match cs with
  | '-' :: rest =>
    let digits := rest.takeWhile Char.isDigit
    if digits.isEmpty then .error "Expecting value"
    else .ok (.num (-(digitsToNat digits : Int)), rest.drop digits.length)
  | _ =>
    let digits := cs.takeWhile Char.isDigit
    if digits.isEmpty then .error "Expecting value"
    else .ok (.num (digitsToNat digits : Int), cs.drop digits.length)

mutual

/-- Parse one JSON value, skipping leading whitespace. -/
def parseValue : Nat → List Char → Except String (Json × List Char)
  | 0, _ => .error "Expecting value"
  | fuel + 1, cs =>
    match cs.dropWhile isPySpace with
    | [] => .error "Expecting value"
    | '"' :: rest =>
      match parseStringBody (rest.length + 1) rest with
      | .ok (body, rem) => .ok (.str (String.mk body), rem)
      | .error e => .error e
    | '\x7b' :: rest => parseMembers fuel rest []
    | '[' :: rest => parseItems fuel rest []
    | 't' :: rest =>
      if ['r', 'u', 'e'].isPrefixOf rest then .ok (.bool true, rest.drop 3)
      else .error "Expecting value"
    | 'f' :: rest =>
      if ['a', 'l', 's', 'e'].isPrefixOf rest then .ok (.bool false, rest.drop 4)
      else .error "Expecting value"
    | 'n' :: rest =>
      if ['u', 'l', 'l'].isPrefixOf rest then .ok (.null, rest.drop 3)
      else .error "Expecting value"
    | c :: rest =>
      if c == '-' || c.isDigit then parseNumber (c :: rest)
      else .error "Expecting value"

/-- Parse the members of a JSON object after the opening brace, accumulating
into `acc` with last-occurrence-wins semantics (as Python dicts do). -/
def parseMembers : Nat → List Char → List (String × Json) →
    Except String (Json × List Char)
  | 0, _, _ => .error "Expecting property name"
  | fuel + 1, cs, acc =>
    match cs.dropWhile isPySpace with
    | '\x7d' :: rest => .ok (.obj acc, rest)
    | '"' :: rest =>
      match parseStringBody (rest.length + 1) rest with
      | .error e => .error e
      | .ok (keyChars, afterKey) =>
        match afterKey.dropWhile isPySpace with
        | ':' :: afterColon =>
          match parseValue fuel afterColon with
          | .error e => .error e
          | .ok (v, afterVal) =>
            match afterVal.dropWhile isPySpace with
            | ',' :: afterComma =>
              parseMembers fuel afterComma (setField acc (String.mk keyChars) v)
            | '\x7d' :: rest' =>
              .ok (.obj (setField acc (String.mk keyChars) v), rest')
            | _ => .error "Expecting comma delimiter"
        | _ => .error "Expecting colon delimiter"
    | _ => .error "Expecting property name"

/-- Parse the items of a JSON array after the opening bracket. -/
def parseItems : Nat → List Char → List Json →
    Except String (Json × List Char)
  | 0, _, _ => .error "Expecting value"
  | fuel + 1, cs, acc =>
    match cs.dropWhile isPySpace with
    | ']' :: rest => .ok (.arr acc.reverse, rest)
    | other =>
      match parseValue fuel other with
      | .error e => .error e
      | .ok (v, afterVal) =>
        match afterVal.dropWhile isPySpace with
        | ',' :: afterComma => parseItems fuel afterComma (v :: acc)
        | ']' :: rest' => .ok (.arr (v :: acc).reverse, rest')
        | _ => .error "Expecting comma delimiter"

end

/-- The model of `json.loads`: parse one value, then demand that only
whitespace remains. -/
def jsonLoads (cs : List Char) : Except String Json :=
  match parseValue (cs.length + 2) cs with
  | .error e => .error e
  | .ok (j, rest) =>
    if (rest.dropWhile isPySpace).isEmpty then .ok j else .error "Extra data"

/-! ## The template data model (`config.py`) -/

/-- `config.CriticityLevel`. -/
inductive CriticityLevel where
  | MINEUR
  | MAJEUR
  | CRITIQUE
deriving DecidableEq

/-- The `.value` attribute of the Python enum. -/
def CriticityLevel.value : CriticityLevel → String
  | .MINEUR => "Mineur"
  | .MAJEUR => "Majeur"
  | .CRITIQUE => "Critique"

/-- `config.ControlPoint`. -/
structure ControlPoint where
  name : String
  description : String
  criticity : CriticityLevel
  synonyms : List String := []
  required : Bool := true
  validation_rules : List String := []

/-- `config.DocumentTemplate`. -/
structure DocumentTemplate where
  name : String
  description : String
  category : String
  control_points : List ControlPoint

/-- `config.TEMPLATE_CHIMIE` (six control points, all `CRITIQUE`). -/
def TEMPLATE_CHIMIE : DocumentTemplate :=
  { name := "Fiche de Sécurité Chimique"
    description := "Analyse de fiches de données de sécurité (FDS)"
    category := "chimie"
    control_points :=
      [ { name := "Identification"
          description := "Identification de la substance"
          criticity := .CRITIQUE
          synonyms := ["Product Identifier", "Identification", "Nom chimique", "CAS"] }
      , { name := "Danger"
          description := "Identification des dangers"
          criticity := .CRITIQUE
          synonyms := ["Hazards", "Pictogrammes", "H-phrases", "Danger"] }
      , { name := "Composition"
          description := "Composition chimique"
          criticity := .CRITIQUE
          synonyms := ["Composition", "Substances", "Mélange", "Ingrédients"] }
      , { name := "Premiers secours"
          description := "Mesures premiers secours"
          criticity := .CRITIQUE
          synonyms := ["First Aid", "Secours", "Intervention"] }
      , { name := "Manipulation"
          description := "Précautions de manipulation"
          criticity := .CRITIQUE
          synonyms := ["Handling", "Storage", "Manipulation", "Stockage"] }
      , { name := "Protection"
          description := "Équipements de protection"
          criticity := .CRITIQUE
          synonyms := ["PPE", "Protection", "EPC", "Gants", "Lunettes"] } ] }

/-! ## `TechnicalDocumentAnalyzer.analyze` (`analyzer.py`, lines 130-190)

The external Gemini call is a black box; its observable outcome is
abstracted as `ApiResponse`.  Everything `analyze` does after the call —
text extraction fallback, code-fence stripping, `json.loads`, key-presence
defaults, and the three `except` branches — is modelled as code. -/

/-- The observable outcome of `client.models.generate_content` together with
the text-extraction step of lines 147-156: either some exception was raised
(by the call or anywhere in the `try`), or no response text could be
extracted, or a raw text was obtained. -/
inductive ApiResponse where
  | raised (msg : String)
  | noText
  | text (raw : String)

/-- The zeroed counts used by every error summary in `analyze`. -/
def zeroCounts : List (String × Json) :=
  [("total_points", .num 0), ("conforme", .num 0),
   ("douteux", .num 0), ("non_conforme", .num 0)]

/-- The return value of line 159 (empty API response). -/
def emptyResponseError : Json :=
  .obj [("error", .str "Réponse vide de l'API"),
        ("global_status", .str "NON_CONFORME"),
        ("points", .arr []),
        ("summary", .obj (zeroCounts ++ [("recommendations", .str "Erreur: réponse vide")]))]

/-- The return value of line 186 (`json.JSONDecodeError`): `result_text` is
the cleaned text at that point, replaced by `"N/A"` when it is empty
(falsy). -/
def decodeError (e : String) (cleaned : List Char) : Json :=
  .obj [("error", .str ("Format de réponse invalide: " ++ e)),
        ("raw_response", .str (if cleaned.isEmpty then "N/A" else String.mk cleaned)),
        ("global_status", .str "NON_CONFORME"),
        ("points", .arr []),
        ("summary", .obj zeroCounts)]

/-- The return value of line 190 (any other exception); the traceback text
carries no decision content and is modelled by a fixed placeholder string. -/
def genericError (msg : String) : Json :=
  .obj [("error", .str msg),
        ("traceback", .str "Traceback (most recent call last)"),
        ("global_status", .str "NON_CONFORME"),
        ("points", .arr []),
        ("summary", .obj zeroCounts)]

/-- Lines 161-169: strip whitespace, strip a leading ```` ```json ```` or
```` ``` ```` marker, strip a trailing ```` ``` ```` marker, strip again. -/
def cleanResponse (raw : List Char) : List Char :=
  let t0 := pyStrip raw
  let t1 := if pyStartsWith "```json".data t0 then t0.drop 7 else t0
  let t2 := if pyStartsWith "```".data t1 then t1.drop 3 else t1
  let t3 := if pyEndsWith "```".data t2 then t2.take (t2.length - 3) else t2
  pyStrip t3

/-- Lines 174-179: default the keys `points`, `summary` and `global_status`
when the parsed object lacks them; nothing else is touched. -/
def validateResult (j : Json) : Json :=
  let j1 := if j.hasKey "points" then j else j.set "points" (.arr [])
  let j2 := if j1.hasKey "summary" then j1 else j1.set "summary" (.obj zeroCounts)
  if j2.hasKey "global_status" then j2 else j2.set "global_status" (.str "NON_CONFORME")

/-- `TechnicalDocumentAnalyzer.analyze(text, template)`.  The `text` and
`template` arguments only feed the prompt of the external call (lines
133-134) and do not influence the processing of the response; they are kept
to mirror the Python signature.  After a successful parse, a non-dict result
or a non-dict `summary` value makes line 174 or line 181 raise, landing in
the generic `except` branch. -/
def analyze (text : String) (template : DocumentTemplate) (resp : ApiResponse) : Json :=
  match resp with
  | .raised msg => genericError msg
  | .noText => emptyResponseError
  | .text raw =>
    match jsonLoads (cleanResponse raw.data) with
    | .error e => decodeError e (cleanResponse raw.data)
    | .ok (.obj fields) =>
      let r := validateResult (.obj fields)
      match r.get "summary" with
      | some (.obj _) => r
      | _ => genericError "AttributeError: summary has no attribute get"
    | .ok _ => genericError "TypeError: result is not a dict"

/-! ## `TechnicalDocumentAnalyzer.compare_documents` (lines 197-221) -/

/-- The difference test of line 212:
`p1["status"] != p2["status"] or p1["value_found"] != p2["value_found"]`. -/
def pointDiffers (p1 p2 : Json) : Bool :=
  p1.get "status" != p2.get "status" || p1.get "value_found" != p2.get "value_found"

/-- The difference record of lines 213-219.  Python indexes `p1["name"]`
etc. directly, raising `KeyError` on a missing key; the `.getD .null`
defaults here are only ever exercised on schema-shaped points that carry
all the keys. -/
def diffEntry (p1 p2 : Json) : Json :=
  .obj [("point", (p1.get "name").getD .null),
        ("doc1_status", (p1.get "status").getD .null),
        ("doc1_value", (p1.get "value_found").getD .null),
        ("doc2_status", (p2.get "status").getD .null),
        ("doc2_value", (p2.get "value_found").getD .null)]

/-- Lines 204-221 applied to the two analysis dicts: build the comparison
dict; when both analyses carry a `points` key, walk `zip(points1, points2)`
appending a difference record for each differing pair.  The catch-all branch
covers a missing `points` key (the loop is skipped and `differences` stays
empty); a `points` value that is not a list would raise in Python and is
unexercised by the theorems. -/
def comparisonOf (analysis1 analysis2 : Json) : Json :=
  let diffs :=
    match analysis1.get "points", analysis2.get "points" with
    | some (.arr ps1), some (.arr ps2) =>
      (ps1.zip ps2).foldl
        (fun acc pp => if pointDiffers pp.1 pp.2 then acc ++ [diffEntry pp.1 pp.2] else acc) []
    | _, _ => []
  .obj [("document_1", analysis1), ("document_2", analysis2), ("differences", .arr diffs)]

/-- `compare_documents(text1, text2, template)`: analyze both texts, then
compare the two results. -/
def compare_documents (text1 text2 : String) (template : DocumentTemplate)
    (resp1 resp2 : ApiResponse) : Json :=
  comparisonOf (analyze text1 template resp1) (analyze text2 template resp2)

/-! ## `BatchAnalyzer` (`analyzer.py`, lines 223-269) -/

/-- One entry of the `documents` argument of `analyze_multiple`: the dict
built by `app.py` (filename, OCR text, metadata), plus the abstracted
outcome of the model call this document will trigger. -/
structure BatchDoc where
  filename : Option String
  text : String
  metadata : Option Json
  resp : ApiResponse

/-- The loop body of `analyze_multiple` (lines 237-239) for the document at
1-based position `i`: analyze, then set `filename` and `metadata` on the
result dict. -/
def analyzeDoc (template : DocumentTemplate) (i : Nat) (doc : BatchDoc) : Json :=
  ((analyze doc.text template doc.resp).set "filename"
      (.str (doc.filename.getD ("document_" ++ toString i)))).set "metadata"
    (doc.metadata.getD (.obj []))

/-- `BatchAnalyzer.analyze_multiple(documents, template)` (lines 230-243). -/
def analyze_multiple (template : DocumentTemplate) (docs : List BatchDoc) : List Json :=
  (docs.enumFrom 1).map (fun p => analyzeDoc template p.1 p.2)

/-- Line 249 / line 250: count of results whose `global_status` equals the
given string (`dict.get` returning a missing key or a non-string value
compares unequal). -/
def statusCount (s : String) (results : List Json) : Nat :=
  results.countP (fun r => r.getStr "global_status" == some s)

/-- Lines 255-257: the `critical_issues` list of a result's summary, empty
when `summary` is absent or carries no `critical_issues` list. -/
def criticalIssuesOf (r : Json) : List Json :=
  match r.get "summary" with
  | some s =>
    match s.get "critical_issues" with
    | some (.arr xs) => xs
    | _ => []
  | none => []

/-- The `batch_summary` dict of `generate_batch_report`.
`partiellement_conforme` is computed by subtraction (line 251), hence the
`Int` type mirroring Python's signed arithmetic; `conformity_rate` is exact
rational arithmetic, faithful to the Python float on every value the
formula produces here. -/
structure BatchSummary where
  total_documents : Nat
  conforme : Nat
  partiellement_conforme : Int
  non_conforme : Nat
  conformity_rate : ℚ
deriving DecidableEq

/-- The return dict of `generate_batch_report` (lines 259-269). -/
structure BatchReport where
  batch_summary : BatchSummary
  critical_issues_summary : List Json
  documents : List Json

/-- `BatchAnalyzer.generate_batch_report(results)` (lines 245-269).
Python's `list(set(all_critical_issues))` iterates the set in unspecified
order; it is modelled as deduplication keeping first occurrences. -/
def generate_batch_report (results : List Json) : BatchReport :=
  let total := results.length
  let c := statusCount "CONFORME" results
  let nc := statusCount "NON_CONFORME" results
  { batch_summary :=
      { total_documents := total
        conforme := c
        partiellement_conforme := (total : Int) - (c : Int) - (nc : Int)
        non_conforme := nc
        conformity_rate := if total > 0 then (c : ℚ) / (total : ℚ) * 100 else 0 }
    critical_issues_summary := ((results.map criticalIssuesOf).flatten).eraseDups
    documents := results }

/-! ## The batch OCR phase of `app.py` (`render_batch_analysis`, lines 411-458) -/

/-- One uploaded file, with the outcome its OCR extraction would have and the
outcome of the model call on its extracted text. -/
inductive OcrOutcome where
  | ok (text : String)
  | err (msg : String)

/-- An uploaded PDF in the batch UI. -/
structure UploadedFile where
  name : String
  size : Int
  ocr : OcrOutcome
  resp : ApiResponse

/-- Lines 437-450 of `app.py`: run OCR over every uploaded file; a file whose
extraction raises is reported to the UI and **not appended** to `documents`. -/
def ocrPhase (files : List UploadedFile) : List BatchDoc :=
  files.filterMap (fun f =>
    match f.ocr with
    | .ok t =>
      some { filename := some f.name, text := t,
             metadata := some (.obj [("size", .num f.size)]), resp := f.resp }
    | .err _ => none)

/-- Lines 452-457 of `app.py`: analyze the surviving documents and build the
batch report. -/
def run_batch (template : DocumentTemplate) (files : List UploadedFile) : BatchReport :=
  generate_batch_report (analyze_multiple template (ocrPhase files))

/-! ## Shapes used by the claims -/

/-- The documented error shape: an `error` key, `global_status` equal to
`"NON_CONFORME"`, an empty `points` list, and an all-zero summary. -/
def errorShaped (r : Json) : Prop :=
  (r.get "error").isSome = true ∧
  r.getStr "global_status" = some "NON_CONFORME" ∧
  r.getArr "points" = some [] ∧
  ∃ s, r.get "summary" = some s ∧
    s.getNum "total_points" = some 0 ∧ s.getNum "conforme" = some 0 ∧
    s.getNum "douteux" = some 0 ∧ s.getNum "non_conforme" = some 0

/-! ## Concrete model responses used by the claims -/

/-- A schema-shaped model response whose single point claims status
`CONFORME` while carrying recommendation `REFUSER`. -/
def c1raw : String :=
  "\x7b\"global_status\": \"CONFORME\", \"points\": [\x7b\"name\": \"Identification\", \"status\": \"CONFORME\", \"value_found\": \"CAS 64-17-5\", \"comment\": null, \"criticity\": \"Critique\", \"recommendation\": \"REFUSER\"\x7d], \"summary\": \x7b\"total_points\": 1, \"conforme\": 1, \"douteux\": 0, \"non_conforme\": 0\x7d\x7d"

/-- The point of `c1raw` as parsed. -/
def c1point : Json :=
  .obj [("name", .str "Identification"), ("status", .str "CONFORME"),
        ("value_found", .str "CAS 64-17-5"), ("comment", .null),
        ("criticity", .str "Critique"), ("recommendation", .str "REFUSER")]

/-- The summary shared by the concrete one-point responses, as parsed. -/
def onePointSummary : Json :=
  .obj [("total_points", .num 1), ("conforme", .num 1),
        ("douteux", .num 0), ("non_conforme", .num 0)]

/-- `c1raw` as parsed. -/
def c1fields : List (String × Json) :=
  [("global_status", .str "CONFORME"), ("points", .arr [c1point]),
   ("summary", onePointSummary)]

/-- A model response whose points are all `CONFORME` while the top-level
`global_recommendation` says `REFUSER`. -/
def c2raw : String :=
  "\x7b\"global_status\": \"CONFORME\", \"global_recommendation\": \"REFUSER\", \"points\": [\x7b\"name\": \"Danger\", \"status\": \"CONFORME\", \"value_found\": \"pictogrammes SGH\", \"comment\": null, \"criticity\": \"Critique\", \"recommendation\": \"VALIDER\"\x7d], \"summary\": \x7b\"total_points\": 1, \"conforme\": 1, \"douteux\": 0, \"non_conforme\": 0\x7d\x7d"

/-- The point of `c2raw` as parsed. -/
def c2point : Json :=
  .obj [("name", .str "Danger"), ("status", .str "CONFORME"),
        ("value_found", .str "pictogrammes SGH"), ("comment", .null),
        ("criticity", .str "Critique"), ("recommendation", .str "VALIDER")]

/-- `c2raw` as parsed. -/
def c2fields : List (String × Json) :=
  [("global_status", .str "CONFORME"), ("global_recommendation", .str "REFUSER"),
   ("points", .arr [c2point]), ("summary", onePointSummary)]

/-- A model response with an empty `points` array. -/
def c3raw : String :=
  "\x7b\"global_status\": \"CONFORME\", \"points\": [], \"summary\": \x7b\"total_points\": 0, \"conforme\": 0, \"douteux\": 0, \"non_conforme\": 0\x7d\x7d"

/-- A model response with no `points` key at all. -/
def c3rawNoPoints : String :=
  "\x7b\"global_status\": \"CONFORME\", \"summary\": \x7b\"total_points\": 0, \"conforme\": 0, \"douteux\": 0, \"non_conforme\": 0\x7d\x7d"

/-- The zeroed summary of `c3raw` as parsed. -/
def zeroPointSummary : Json :=
  .obj [("total_points", .num 0), ("conforme", .num 0),
        ("douteux", .num 0), ("non_conforme", .num 0)]

/-- `c3raw` as parsed. -/
def c3fields : List (String × Json) :=
  [("global_status", .str "CONFORME"), ("points", .arr []),
   ("summary", zeroPointSummary)]

/-- `c3rawNoPoints` as parsed. -/
def c3fieldsNoPoints : List (String × Json) :=
  [("global_status", .str "CONFORME"), ("summary", zeroPointSummary)]

/-- A model response whose single point claims `CONFORME` while its evidence
field reads `"non trouvé"`. -/
def c4raw : String :=
  "\x7b\"global_status\": \"CONFORME\", \"points\": [\x7b\"name\": \"Danger\", \"status\": \"CONFORME\", \"value_found\": \"non trouvé\", \"comment\": null, \"criticity\": \"Critique\", \"recommendation\": \"VALIDER\"\x7d], \"summary\": \x7b\"total_points\": 1, \"conforme\": 1, \"douteux\": 0, \"non_conforme\": 0\x7d\x7d"

/-- The point of `c4raw` as parsed. -/
def c4point : Json :=
  .obj [("name", .str "Danger"), ("status", .str "CONFORME"),
        ("value_found", .str "non trouvé"), ("comment", .null),
        ("criticity", .str "Critique"), ("recommendation", .str "VALIDER")]

/-- `c4raw` as parsed. -/
def c4fields : List (String × Json) :=
  [("global_status", .str "CONFORME"), ("points", .arr [c4point]),
   ("summary", onePointSummary)]

/-- A three-file batch whose middle file fails OCR extraction. -/
def c5files : List UploadedFile :=
  [ { name := "a.pdf", size := 100, ocr := .ok "texte A", resp := .raised "quota" }
  , { name := "b.pdf", size := 200, ocr := .err "PDF corrompu", resp := .raised "quota" }
  , { name := "c.pdf", size := 300, ocr := .ok "texte C", resp := .raised "quota" } ]

/-- Whether a file's OCR extraction succeeds. -/
def ocrOk (f : UploadedFile) : Bool :=
  match f.ocr with
  | .ok _ => true
  | .err _ => false

/-- A batch document whose model call raises. -/
def c5docA : BatchDoc :=
  { filename := some "a.pdf", text := "texte A", metadata := none,
    resp := .raised "quota dépassé" }

/-- A batch document whose model call succeeds. -/
def c5docB : BatchDoc :=
  { filename := some "b.pdf", text := "texte B", metadata := none,
    resp := .text c1raw }

/-- A two-document batch whose first model call raises. -/
def c5docs : List BatchDoc := [c5docA, c5docB]

/-- A per-document result with `global_status = "CONFORME"`. -/
def conformeDoc : Json := .obj [("global_status", .str "CONFORME")]

/-- A per-document result with `global_status = "NON_CONFORME"`. -/
def nonConformeDoc : Json := .obj [("global_status", .str "NON_CONFORME")]

/-- Four per-document results, three of them Conforme. -/
def c8docs : List Json := [conformeDoc, conformeDoc, conformeDoc, nonConformeDoc]

/-- An error dictionary with no `global_status` key (the error shape of
`pdf_analyzer_v2/analyzer.py`). -/
def bareErrorDoc : Json := .obj [("error", .str "Format de réponse invalide")]

/-- A model output with explanatory prose before a valid JSON payload, as a
chatty model might produce. -/
def c7raw : String :=
  "Voici le résultat de mon analyse :\n\x7b\"global_status\": \"CONFORME\", \"points\": [], \"summary\": \x7b\"total_points\": 0, \"conforme\": 0, \"douteux\": 0, \"non_conforme\": 0\x7d\x7d"

/-- A point as analysed in the first document. -/
def c10p1 : Json :=
  .obj [("name", .str "Identification"), ("status", .str "CONFORME"),
        ("value_found", .str "CAS 64-17-5")]

/-- The same point as analysed in the second document: status and value
differ. -/
def c10p1' : Json :=
  .obj [("name", .str "Identification"), ("status", .str "NON_CONFORME"),
        ("value_found", .null)]

/-- A point identical in the two documents. -/
def c10p2 : Json :=
  .obj [("name", .str "Danger"), ("status", .str "CONFORME"),
        ("value_found", .str "SGH02")]

/-- An extra trailing point present only in the second analysis. -/
def c10extra : Json :=
  .obj [("name", .str "Extra"), ("status", .str "CONFORME"), ("value_found", .null)]

/-- A first analysis result with two points. -/
def c10a1 : Json := .obj [("points", .arr [c10p1, c10p2])]

/-- A second analysis result with three points (one extra). -/
def c10a2 : Json := .obj [("points", .arr [c10p1', c10p2, c10extra])]

/-! ## Dictionary access lemmas -/

theorem Json.get_set_ne (j : Json) (k k' : String) (v : Json) (h : k' ≠ k) :
    (j.set k v).get k' = j.get k' := by
  cases j with
  | obj fields =>
    induction fields with
    | nil =>
      simp only [Json.set, setField, Json.get, List.find?]
      have hb : (k == k') = false := by
        simp only [beq_eq_false_iff_ne]; exact fun hh => h hh.symm
      simp [hb]
    | cons kv rest ih =>
      obtain ⟨k0, v0⟩ := kv
      by_cases h0 : k0 = k
      · subst h0
        have hb : (k0 == k0) = true := by simp
        have hb' : (k0 == k') = false := by
          simp only [beq_eq_false_iff_ne]; exact fun hh => h hh.symm
        simp [Json.set, setField, Json.get, List.find?, hb, hb']
      · have hb : (k0 == k) = false := by simp [h0]
        by_cases h1 : k0 = k'
        · subst h1
          simp [Json.set, setField, Json.get, List.find?, hb]
        · have hb1 : (k0 == k') = false := by simp [h1]
          have ih' := ih
          simp only [Json.set, setField, hb, Json.get, List.find?, hb1,
            cond_false] at ih' ⊢
          exact ih'
  | null => rfl
  | bool b => rfl
  | num n => rfl
  | str s => rfl
  | arr xs => rfl

theorem Json.get_set_eq (fields : List (String × Json)) (k : String) (v : Json) :
    ((Json.obj fields).set k v).get k = some v := by
  induction fields with
  | nil => simp [Json.set, setField, Json.get, List.find?]
  | cons kv rest ih =>
    obtain ⟨k0, v0⟩ := kv
    by_cases h0 : k0 = k
    · subst h0
      simp [Json.set, setField, Json.get, List.find?]
    · have hb : (k0 == k) = false := by simp [h0]
      simp only [Json.set, setField, hb, Json.get, List.find?, cond_false] at ih ⊢
      simpa using ih

/-- A defaulting step `if k0 in d: d else d[k0] = v0` leaves every present
key intact. -/
theorem get_defaultStep (j : Json) (k0 : String) (v0 : Json) (k : String) (v : Json)
    (h : j.get k = some v) :
    (if j.hasKey k0 then j else j.set k0 v0).get k = some v := by
  by_cases hk : j.hasKey k0
  · simp [hk, h]
  · have hne : k ≠ k0 := by
      intro he
      subst he
      simp [Json.hasKey, h] at hk
    simp [hk, Json.get_set_ne _ _ _ _ hne, h]

/-- `validateResult` leaves every present key intact. -/
theorem validateResult_get_present (j : Json) (k : String) (v : Json)
    (h : j.get k = some v) : (validateResult j).get k = some v := by
  unfold validateResult
  exact get_defaultStep _ _ _ _ _ (get_defaultStep _ _ _ _ _ (get_defaultStep _ _ _ _ _ h))

/-- A defaulting step leaves every other key exactly as it was, present or
not. -/
theorem get_defaultStep_other (j : Json) (k0 : String) (v0 : Json) (k : String)
    (h : k ≠ k0) :
    (if j.hasKey k0 then j else j.set k0 v0).get k = j.get k := by
  by_cases hk : j.hasKey k0 <;> simp [hk, Json.get_set_ne _ _ _ _ h]

/-- `validateResult` leaves every key other than the three defaulted ones
exactly as it was, present or not. -/
theorem validateResult_get_other (j : Json) (k : String)
    (h1 : k ≠ "points") (h2 : k ≠ "summary") (h3 : k ≠ "global_status") :
    (validateResult j).get k = j.get k := by
  unfold validateResult
  exact (get_defaultStep_other _ _ _ _ h3).trans
    ((get_defaultStep_other _ _ _ _ h2).trans (get_defaultStep_other _ _ _ _ h1))

/-- Whether a JSON value is an object (a Python dict). -/
def Json.isObj : Json → Bool
  | .obj _ => true
  | _ => false

theorem Json.isObj_set (j : Json) (k : String) (v : Json) :
    (j.set k v).isObj = j.isObj := by
  cases j <;> rfl

theorem isObj_defaultStep (j : Json) (k0 : String) (v0 : Json) :
    (if j.hasKey k0 then j else j.set k0 v0).isObj = j.isObj := by
  by_cases hk : j.hasKey k0 <;> simp [hk, Json.isObj_set]

/-- A defaulting step on an object installs the default when the key is
absent. -/
theorem get_defaultStep_self (j : Json) (k0 : String) (v0 : Json)
    (hobj : j.isObj = true) (h : j.get k0 = none) :
    (if j.hasKey k0 then j else j.set k0 v0).get k0 = some v0 := by
  have hk : ¬ j.hasKey k0 := by simp [Json.hasKey, h]
  cases j with
  | obj fields => simp [hk, Json.get_set_eq]
  | null => simp [Json.isObj] at hobj
  | bool b => simp [Json.isObj] at hobj
  | num n => simp [Json.isObj] at hobj
  | str s => simp [Json.isObj] at hobj
  | arr xs => simp [Json.isObj] at hobj

/-- After `validateResult`, the `summary` key of a parsed object whose
`summary` was either absent or a dict is present and a dict. -/
theorem validateResult_summary_obj (fields : List (String × Json))
    (h : ∀ v, (Json.obj fields).get "summary" = some v → ∃ s, v = Json.obj s) :
    ∃ s, (validateResult (Json.obj fields)).get "summary" = some (Json.obj s) := by
  cases hs : (Json.obj fields).get "summary" with
  | some v =>
    obtain ⟨s, rfl⟩ := h v hs
    exact ⟨s, validateResult_get_present _ _ _ hs⟩
  | none =>
    refine ⟨zeroCounts, ?_⟩
    unfold validateResult
    apply get_defaultStep
    apply get_defaultStep_self
    · rw [isObj_defaultStep]; rfl
    · rw [get_defaultStep_other _ _ _ _ (by decide)]
      exact hs

/-! ## Behaviour of `analyze` on the success and failure paths -/

/-- On a response that parses to a dict whose `summary` (if present) is a
dict, `analyze` returns the parsed dict with the three keys defaulted. -/
theorem analyze_text_ok (text : String) (tpl : DocumentTemplate) (raw : String)
    (fields : List (String × Json))
    (hp : jsonLoads (cleanResponse raw.data) = .ok (.obj fields))
    (hs : ∀ v, (Json.obj fields).get "summary" = some v → ∃ s, v = Json.obj s) :
    analyze text tpl (.text raw) = validateResult (.obj fields) := by
  obtain ⟨s, hsum⟩ := validateResult_summary_obj fields hs
  simp only [analyze]
  rw [hp]
  simp [hsum]

theorem errorShaped_genericError (msg : String) : errorShaped (genericError msg) := by
  refine ⟨rfl, rfl, rfl, ?_⟩
  exact ⟨_, rfl, rfl, rfl, rfl, rfl⟩

theorem errorShaped_emptyResponseError : errorShaped emptyResponseError := by
  refine ⟨rfl, rfl, rfl, ?_⟩
  exact ⟨_, rfl, rfl, rfl, rfl, rfl⟩

theorem errorShaped_decodeError (e : String) (cleaned : List Char) :
    errorShaped (decodeError e cleaned) := by
  refine ⟨rfl, rfl, rfl, ?_⟩
  exact ⟨_, rfl, rfl, rfl, rfl, rfl⟩

/-- C6: whenever a single-document analysis fails — an exception anywhere in
the call (including a non-dict parsed result or a non-dict `summary` value),
an empty API response, or a JSON decode error — `analyze` returns a dict
with an `error` key together with `global_status = "NON_CONFORME"`, an empty
`points` list and an all-zero summary; no failure path ever produces a
Conforme verdict. -/
theorem analyze_failure_error_shape (text : String) (tpl : DocumentTemplate) :
    (∀ msg, errorShaped (analyze text tpl (.raised msg))) ∧
    errorShaped (analyze text tpl .noText) ∧
    (∀ raw e, jsonLoads (cleanResponse raw.data) = .error e →
      errorShaped (analyze text tpl (.text raw))) ∧
    (∀ raw j, jsonLoads (cleanResponse raw.data) = .ok j → j.isObj = false →
      errorShaped (analyze text tpl (.text raw))) ∧
    (∀ raw fields v, jsonLoads (cleanResponse raw.data) = .ok (.obj fields) →
      (Json.obj fields).get "summary" = some v → v.isObj = false →
      errorShaped (analyze text tpl (.text raw))) := by
  refine ⟨fun msg => errorShaped_genericError msg, errorShaped_emptyResponseError,
    fun raw e hp => ?_, fun raw j hp hobj => ?_, fun raw fields v hp hsum hobj => ?_⟩
  · simp only [analyze]
    rw [hp]
    exact errorShaped_decodeError e _
  · simp only [analyze]
    rw [hp]
    cases j with
    | obj fields => simp [Json.isObj] at hobj
    | null => exact errorShaped_genericError _
    | bool b => exact errorShaped_genericError _
    | num n => exact errorShaped_genericError _
    | str s => exact errorShaped_genericError _
    | arr xs => exact errorShaped_genericError _
  · simp only [analyze]
    rw [hp]
    have hv : (validateResult (Json.obj fields)).get "summary" = some v :=
      validateResult_get_present _ _ _ hsum
    dsimp only
    rw [hv]
    cases v with
    | obj s => simp [Json.isObj] at hobj
    | null => exact errorShaped_genericError _
    | bool b => exact errorShaped_genericError _
    | num n => exact errorShaped_genericError _
    | str s => exact errorShaped_genericError _
    | arr xs => exact errorShaped_genericError _

/-- Witness for C6: a raised model-call exception and a non-JSON response
text both yield the documented error shape. -/
theorem analyze_failure_error_shape_witness :
    errorShaped (analyze "doc" TEMPLATE_CHIMIE (.raised "API timeout")) ∧
    errorShaped (analyze "doc" TEMPLATE_CHIMIE (.text "pas du JSON")) :=
  ⟨(analyze_failure_error_shape "doc" TEMPLATE_CHIMIE).1 "API timeout",
   (analyze_failure_error_shape "doc" TEMPLATE_CHIMIE).2.2.1 "pas du JSON"
     "Expecting value" rfl⟩

/-- From a concrete object whose `summary` is a dict, the hypothesis shape
used by `analyze_text_ok`. -/
theorem summaryOk_of_obj (fields sfields : List (String × Json))
    (h : (Json.obj fields).get "summary" = some (.obj sfields)) :
    ∀ v, (Json.obj fields).get "summary" = some v → ∃ s, v = Json.obj s := by
  intro v hv
  rw [h] at hv
  injection hv with hv
  exact ⟨sfields, hv.symm⟩

/-- When the parsed object lacks a `points` key, `validateResult` installs an
empty list. -/
theorem validateResult_points (fields : List (String × Json))
    (h : (Json.obj fields).get "points" = none) :
    (validateResult (Json.obj fields)).get "points" = some (.arr []) := by
  unfold validateResult
  apply get_defaultStep
  apply get_defaultStep
  exact get_defaultStep_self _ _ _ rfl h

/-- C1 (amended): `analyze` performs no per-point recommendation
recomputation: the `points` array of the returned result is exactly the
model-supplied one, recommendations included, so
`status == Conforme ⟺ recommendation == Validate` holds only when the model
already returned it. -/
theorem analyze_point_recommendation_passthrough
    (text : String) (tpl : DocumentTemplate) (raw : String)
    (fields : List (String × Json)) (ps : List Json)
    (hp : jsonLoads (cleanResponse raw.data) = .ok (.obj fields))
    (hpts : (Json.obj fields).get "points" = some (.arr ps))
    (hs : ∀ v, (Json.obj fields).get "summary" = some v → ∃ s, v = Json.obj s) :
    (analyze text tpl (.text raw)).getArr "points" = some ps := by
  rw [analyze_text_ok text tpl raw fields hp hs]
  simp [Json.getArr, validateResult_get_present _ _ _ hpts]

/-- Witness for C1: the concrete response `c1raw` is passed through. -/
theorem analyze_point_recommendation_passthrough_witness :
    (analyze "doc" TEMPLATE_CHIMIE (.text c1raw)).getArr "points" = some [c1point] :=
  analyze_point_recommendation_passthrough "doc" TEMPLATE_CHIMIE c1raw c1fields
    [c1point] rfl rfl (summaryOk_of_obj _ _ rfl)

/-- C1 counterexample: a parsed per-point answer with status `CONFORME` and
model-supplied recommendation `REFUSER` is returned with recommendation
`REFUSER`, not `VALIDER`: nothing recomputes it, and
`status == Conforme ⟺ recommendation == Validate` fails on the result. -/
theorem analyze_point_recommendation_counterexample :
    (analyze "doc" TEMPLATE_CHIMIE (.text c1raw)).getArr "points" = some [c1point] ∧
    c1point.getStr "status" = some "CONFORME" ∧
    c1point.getStr "recommendation" = some "REFUSER" ∧
    "REFUSER" ≠ "VALIDER" :=
  ⟨rfl, rfl, rfl, by decide⟩

/-- C2 (amended): `analyze` does not compute `global_recommendation` from the
per-point results: the returned value is exactly the model-supplied one
(absent when the model omits it); the decision algorithm exists only in the
embedded instruction text. -/
theorem analyze_global_recommendation_passthrough
    (text : String) (tpl : DocumentTemplate) (raw : String)
    (fields : List (String × Json))
    (hp : jsonLoads (cleanResponse raw.data) = .ok (.obj fields))
    (hs : ∀ v, (Json.obj fields).get "summary" = some v → ∃ s, v = Json.obj s) :
    (analyze text tpl (.text raw)).get "global_recommendation" =
      (Json.obj fields).get "global_recommendation" := by
  rw [analyze_text_ok text tpl raw fields hp hs]
  exact validateResult_get_other _ _ (by decide) (by decide) (by decide)

/-- Witness for C2: the concrete response `c2raw` keeps its model-supplied
`global_recommendation`. -/
theorem analyze_global_recommendation_passthrough_witness :
    (analyze "doc" TEMPLATE_CHIMIE (.text c2raw)).get "global_recommendation" =
      (Json.obj c2fields).get "global_recommendation" :=
  analyze_global_recommendation_passthrough "doc" TEMPLATE_CHIMIE c2raw c2fields
    rfl (summaryOk_of_obj _ _ rfl)

/-- C2 counterexample: a response whose single point is Critical and
`CONFORME` (so no point has criticity Critical with status ≠ Conforme), yet
whose returned `global_recommendation` is `REFUSER`: the claimed
biconditional fails and nothing recomputes the value. -/
theorem analyze_global_recommendation_counterexample :
    (analyze "doc" TEMPLATE_CHIMIE (.text c2raw)).getStr "global_recommendation" =
      some "REFUSER" ∧
    (analyze "doc" TEMPLATE_CHIMIE (.text c2raw)).getArr "points" = some [c2point] ∧
    c2point.getStr "criticity" = some "Critique" ∧
    c2point.getStr "status" = some "CONFORME" :=
  ⟨rfl, rfl, rfl, rfl⟩

/-- C3 (amended): the returned `points` list is exactly the model-supplied
array (or `[]` when the key is absent), for every template; no missing
control point is synthesized, so its length need not equal
`len(template.control_points)`. -/
theorem analyze_points_not_synthesized
    (text : String) (tpl : DocumentTemplate) (raw : String)
    (fields : List (String × Json))
    (hp : jsonLoads (cleanResponse raw.data) = .ok (.obj fields))
    (hs : ∀ v, (Json.obj fields).get "summary" = some v → ∃ s, v = Json.obj s) :
    ((Json.obj fields).get "points" = none →
      (analyze text tpl (.text raw)).getArr "points" = some []) ∧
    (∀ ps, (Json.obj fields).get "points" = some (.arr ps) →
      (analyze text tpl (.text raw)).getArr "points" = some ps) := by
  constructor
  · intro h
    rw [analyze_text_ok text tpl raw fields hp hs]
    simp [Json.getArr, validateResult_points fields h]
  · intro ps h
    rw [analyze_text_ok text tpl raw fields hp hs]
    simp [Json.getArr, validateResult_get_present _ _ _ h]

/-- Witness for C3: a response with no `points` key defaults to `[]`, and a
response with an empty `points` array stays empty. -/
theorem analyze_points_not_synthesized_witness :
    (analyze "doc" TEMPLATE_CHIMIE (.text c3rawNoPoints)).getArr "points" = some [] ∧
    (analyze "doc" TEMPLATE_CHIMIE (.text c3raw)).getArr "points" = some [] :=
  ⟨(analyze_points_not_synthesized "doc" TEMPLATE_CHIMIE c3rawNoPoints c3fieldsNoPoints
      rfl (summaryOk_of_obj _ _ rfl)).1 rfl,
   (analyze_points_not_synthesized "doc" TEMPLATE_CHIMIE c3raw c3fields
      rfl (summaryOk_of_obj _ _ rfl)).2 [] rfl⟩

/-- C3 counterexample: the template `chimie` has 6 control points while the
returned result of an empty model `points` array has 0 points, with no entry
synthesized as "missing from model response": `len(points)` differs from
`len(template.control_points)`. -/
theorem analyze_points_count_counterexample :
    TEMPLATE_CHIMIE.control_points.length = 6 ∧
    (analyze "doc" TEMPLATE_CHIMIE (.text c3raw)).getArr "points" = some [] ∧
    (0 : Nat) ≠ 6 :=
  ⟨rfl, rfl, by decide⟩

/-- C4 (amended): a parsed point whose evidence field reads `"non trouvé"`
and whose status claims `CONFORME` is returned unchanged: no downgrade to
`NON_CONFORME` and no consistency correction happens anywhere in `analyze`. -/
theorem analyze_no_evidence_downgrade
    (text : String) (tpl : DocumentTemplate) (raw : String)
    (fields : List (String × Json)) (ps : List Json) (p : Json)
    (hp : jsonLoads (cleanResponse raw.data) = .ok (.obj fields))
    (hpts : (Json.obj fields).get "points" = some (.arr ps))
    (hs : ∀ v, (Json.obj fields).get "summary" = some v → ∃ s, v = Json.obj s)
    (hmem : p ∈ ps)
    (hv : p.getStr "value_found" = some "non trouvé")
    (hst : p.getStr "status" = some "CONFORME") :
    p ∈ ((analyze text tpl (.text raw)).getArr "points").getD [] := by
  rw [analyze_text_ok text tpl raw fields hp hs]
  simpa [Json.getArr, validateResult_get_present _ _ _ hpts] using hmem

/-- Witness for C4: the concrete point of `c4raw` survives unchanged. -/
theorem analyze_no_evidence_downgrade_witness :
    c4point ∈ ((analyze "doc" TEMPLATE_CHIMIE (.text c4raw)).getArr "points").getD [] :=
  analyze_no_evidence_downgrade "doc" TEMPLATE_CHIMIE c4raw c4fields [c4point] c4point
    rfl rfl (summaryOk_of_obj _ _ rfl) (List.mem_singleton_self c4point) rfl rfl

/-- C4 counterexample: a point with evidence `"non trouvé"` claimed
`CONFORME` is returned still claiming `CONFORME`: the resolver downgrade the
spec describes does not exist. -/
theorem analyze_evidence_counterexample :
    (analyze "doc" TEMPLATE_CHIMIE (.text c4raw)).getArr "points" = some [c4point] ∧
    c4point.getStr "value_found" = some "non trouvé" ∧
    c4point.getStr "status" = some "CONFORME" :=
  ⟨rfl, rfl, rfl⟩

/-- Setting an unrelated key preserves the error shape. -/
theorem errorShaped_set (r : Json) (k : String) (v : Json)
    (h1 : "error" ≠ k) (h2 : "global_status" ≠ k) (h3 : "points" ≠ k)
    (h4 : "summary" ≠ k) (h : errorShaped r) : errorShaped (r.set k v) := by
  obtain ⟨e1, e2, e3, s, e4, e5, e6, e7, e8⟩ := h
  refine ⟨?_, ?_, ?_, s, ?_, e5, e6, e7, e8⟩
  · rw [Json.get_set_ne _ _ _ _ h1]; exact e1
  · unfold Json.getStr at e2 ⊢; rw [Json.get_set_ne _ _ _ _ h2]; exact e2
  · unfold Json.getArr at e3 ⊢; rw [Json.get_set_ne _ _ _ _ h3]; exact e3
  · rw [Json.get_set_ne _ _ _ _ h4]; exact e4

/-- The per-position characterization of `analyze_multiple`. -/
theorem analyze_multiple_getElem (tpl : DocumentTemplate) (docs : List BatchDoc)
    (j : Nat) :
    (analyze_multiple tpl docs)[j]? = docs[j]?.map (analyzeDoc tpl (j + 1)) := by
  unfold analyze_multiple
  rw [List.getElem?_map, List.getElem?_enumFrom]
  cases docs[j]? with
  | none => rfl
  | some d => simp [Nat.add_comm]

/-- `ocrPhase` keeps exactly the files whose OCR succeeded. -/
theorem ocrPhase_length (files : List UploadedFile) :
    (ocrPhase files).length = files.countP ocrOk := by
  induction files with
  | nil => rfl
  | cons f fs ih =>
    cases hocr : f.ocr <;>
      simp [ocrPhase, List.filterMap_cons, hocr, List.countP_cons, ocrOk] <;>
      exact ih

/-- C5 (amended): one document's **model-call** failure does not abort the
batch: `analyze_multiple` keeps one result per document, the failing
document's entry is the error placeholder (`error` key,
`global_status = "NON_CONFORME"`, empty points) and every other entry
depends only on its own document; an **OCR** failure, however, is handled in
`app.py` by dropping the document before analysis, so the batch output keeps
exactly the OCR-successful files. -/
theorem batch_model_failure_isolated (tpl : DocumentTemplate) (docs : List BatchDoc)
    (i : Nat) (d : BatchDoc) (msg : String)
    (hd : docs[i]? = some d) (hr : d.resp = .raised msg) :
    (analyze_multiple tpl docs).length = docs.length ∧
    (∀ j, (analyze_multiple tpl docs)[j]? = docs[j]?.map (analyzeDoc tpl (j + 1))) ∧
    (analyze_multiple tpl docs)[i]? = some (analyzeDoc tpl (i + 1) d) ∧
    errorShaped (analyzeDoc tpl (i + 1) d) ∧
    (∀ files : List UploadedFile, (ocrPhase files).length = files.countP ocrOk) := by
  refine ⟨?_, analyze_multiple_getElem tpl docs, ?_, ?_, ocrPhase_length⟩
  · unfold analyze_multiple
    rw [List.length_map, List.enumFrom_length]
  · rw [analyze_multiple_getElem, hd]
    rfl
  · unfold analyzeDoc
    rw [hr]
    apply errorShaped_set _ _ _ (by decide) (by decide) (by decide) (by decide)
    apply errorShaped_set _ _ _ (by decide) (by decide) (by decide) (by decide)
    exact errorShaped_genericError msg

/-- Witness for C5: the two-document batch `c5docs`, whose first model call
raises, keeps both entries and its first entry is the error placeholder. -/
theorem batch_model_failure_isolated_witness :
    (analyze_multiple TEMPLATE_CHIMIE c5docs).length = c5docs.length ∧
    (analyze_multiple TEMPLATE_CHIMIE c5docs)[0]? =
      some (analyzeDoc TEMPLATE_CHIMIE 1 c5docA) ∧
    errorShaped (analyzeDoc TEMPLATE_CHIMIE 1 c5docA) :=
  have h := batch_model_failure_isolated TEMPLATE_CHIMIE c5docs 0 c5docA
    "quota dépassé" rfl rfl
  ⟨h.1, h.2.2.1, h.2.2.2.1⟩

/-- C5 counterexample: in a 3-file batch whose middle file throws an OCR
error, the analysed document list has length 2, not 3: the failing file gets
no placeholder and the batch report counts only 2 documents. -/
theorem batch_ocr_failure_drops_document :
    c5files.length = 3 ∧
    (analyze_multiple TEMPLATE_CHIMIE (ocrPhase c5files)).length = 2 ∧
    (run_batch TEMPLATE_CHIMIE c5files).batch_summary.total_documents = 2 ∧
    (2 : Nat) ≠ 3 :=
  ⟨rfl, rfl, rfl, by decide⟩

/-- C8: `generate_batch_report` computes the conformity rate as
`conforme_count / total × 100`, with `0` for an empty batch; in particular 4
documents of which 3 are Conforme yield 75. -/
theorem conformity_rate_formula :
    (∀ results : List Json,
      (generate_batch_report results).batch_summary.conformity_rate =
        if results.length > 0
        then (statusCount "CONFORME" results : ℚ) / (results.length : ℚ) * 100
        else 0) ∧
    (generate_batch_report []).batch_summary.conformity_rate = 0 ∧
    (generate_batch_report c8docs).batch_summary.conformity_rate = 75 ∧
    statusCount "CONFORME" c8docs = 3 ∧ c8docs.length = 4 := by
  refine ⟨fun results => rfl, rfl, ?_, rfl, rfl⟩
  rw [show (generate_batch_report c8docs).batch_summary.conformity_rate =
    (3 : ℚ) / (4 : ℚ) * 100 from rfl]
  norm_num

/-- The three per-status counts partition the batch. -/
theorem statusCount_partition (results : List Json) :
    statusCount "CONFORME" results + statusCount "NON_CONFORME" results +
      results.countP (fun r => !(r.getStr "global_status" == some "CONFORME") &&
        !(r.getStr "global_status" == some "NON_CONFORME")) = results.length := by
  induction results with
  | nil => rfl
  | cons r rs ih =>
    unfold statusCount at ih ⊢
    rw [List.countP_cons, List.countP_cons, List.countP_cons]
    cases hC : (r.getStr "global_status" == some "CONFORME") with
    | true =>
      cases hN : (r.getStr "global_status" == some "NON_CONFORME") with
      | true =>
        exfalso
        have e1 : r.getStr "global_status" = some "CONFORME" := eq_of_beq hC
        have e2 : r.getStr "global_status" = some "NON_CONFORME" := eq_of_beq hN
        rw [e1] at e2
        simp at e2
      | false => simp [hC, hN]; omega
    | false =>
      cases hN : (r.getStr "global_status" == some "NON_CONFORME") with
      | true => simp [hC, hN]; omega
      | false => simp [hC, hN]; omega

/-- C9: in every batch summary `conforme + partiellement_conforme +
non_conforme = total_documents`, `partiellement_conforme` being the
remainder; a result whose `global_status` is missing or is neither
`"CONFORME"` nor `"NON_CONFORME"` — such as an error dict without the key —
is counted as partially conforming. -/
theorem batch_counts_partition (results : List Json) :
    ((generate_batch_report results).batch_summary.conforme : Int) +
      (generate_batch_report results).batch_summary.partiellement_conforme +
      ((generate_batch_report results).batch_summary.non_conforme : Int) =
      ((generate_batch_report results).batch_summary.total_documents : Int) ∧
    (generate_batch_report results).batch_summary.partiellement_conforme =
      (results.countP (fun r => !(r.getStr "global_status" == some "CONFORME") &&
        !(r.getStr "global_status" == some "NON_CONFORME")) : Int) ∧
    (generate_batch_report [bareErrorDoc]).batch_summary.partiellement_conforme = 1 := by
  have hpart := statusCount_partition results
  refine ⟨?_, ?_, rfl⟩
  · simp only [generate_batch_report]
    omega
  · simp only [generate_batch_report]
    omega

/-- The imperative append loop of `compare_documents` is a `filterMap`. -/
theorem foldl_append_filterMap (pairs : List (Json × Json)) (acc : List Json) :
    pairs.foldl
      (fun acc pp => if pointDiffers pp.1 pp.2 then acc ++ [diffEntry pp.1 pp.2] else acc)
      acc =
    acc ++ pairs.filterMap
      (fun pp => if pointDiffers pp.1 pp.2 then some (diffEntry pp.1 pp.2) else none) := by
  induction pairs generalizing acc with
  | nil => simp
  | cons pp rest ih =>
    cases h : pointDiffers pp.1 pp.2 <;>
      simp [List.foldl_cons, h, List.filterMap_cons, ih, List.append_assoc]

/-- C10: `compare_documents` pairs the two analyses' points positionally up
to the shorter list (extras silently ignored) and records a difference entry
for a pair exactly when the statuses or the `value_found` fields differ;
when either analysis lacks a `points` key the differences list is empty. -/
theorem compare_documents_differences :
    (∀ a1 a2 ps1 ps2, a1.get "points" = some (.arr ps1) →
      a2.get "points" = some (.arr ps2) →
      (comparisonOf a1 a2).getArr "differences" =
        some ((ps1.zip ps2).filterMap (fun pp =>
          if pointDiffers pp.1 pp.2 then some (diffEntry pp.1 pp.2) else none)) ∧
      (((comparisonOf a1 a2).getArr "differences").getD []).length ≤
        min ps1.length ps2.length) ∧
    (∀ a1 a2, a1.get "points" = none ∨ a2.get "points" = none →
      (comparisonOf a1 a2).getArr "differences" = some []) ∧
    (∀ t1 t2 tpl r1 r2, compare_documents t1 t2 tpl r1 r2 =
      comparisonOf (analyze t1 tpl r1) (analyze t2 tpl r2)) := by
  have hget : ∀ (a1 a2 : Json) (d : List Json),
      (Json.obj [("document_1", a1), ("document_2", a2),
        ("differences", .arr d)]).getArr "differences" = some d := fun _ _ _ => rfl
  refine ⟨fun a1 a2 ps1 ps2 h1 h2 => ?_, fun a1 a2 h => ?_, fun _ _ _ _ _ => rfl⟩
  · have hmain : (comparisonOf a1 a2).getArr "differences" =
        some ((ps1.zip ps2).filterMap (fun pp =>
          if pointDiffers pp.1 pp.2 then some (diffEntry pp.1 pp.2) else none)) := by
      unfold comparisonOf
      rw [h1, h2]
      dsimp only
      rw [hget, foldl_append_filterMap]
      simp
    refine ⟨hmain, ?_⟩
    rw [hmain]
    simp only [Option.getD_some]
    exact (List.length_filterMap_le _ _).trans (le_of_eq (List.length_zip _ _))
  · unfold comparisonOf
    rcases h with h | h
    · rw [h]
      cases h2 : a2.get "points" with
      | none => exact hget a1 a2 []
      | some v => cases v <;> exact hget a1 a2 []
    · rw [h]
      cases h1 : a1.get "points" with
      | none => exact hget a1 a2 []
      | some v => cases v <;> exact hget a1 a2 []

/-- Witness for C10: a two-point and a three-point analysis produce exactly
one difference record (the extra point is ignored), and a missing `points`
key yields an empty differences list. -/
theorem compare_documents_differences_witness :
    (comparisonOf c10a1 c10a2).getArr "differences" = some [diffEntry c10p1 c10p1'] ∧
    (comparisonOf c10a1 (Json.obj [])).getArr "differences" = some [] := by
  constructor
  · have h1 := (compare_documents_differences.1 c10a1 c10a2 [c10p1, c10p2]
      [c10p1', c10p2, c10extra] rfl rfl).1
    rw [h1]
    rfl
  · exact compare_documents_differences.2.1 c10a1 (Json.obj []) (Or.inr rfl)

/-! ## Stripping lemmas for the code-fence tolerance claim -/

theorem dropWhile_isPySpace_idem (l : List Char) :
    List.dropWhile isPySpace (List.dropWhile isPySpace l) =
      List.dropWhile isPySpace l := by
  induction l with
  | nil => rfl
  | cons a t ih =>
    by_cases h : isPySpace a
    · rw [List.dropWhile_cons_of_pos h]; exact ih
    · rw [List.dropWhile_cons_of_neg h, List.dropWhile_cons_of_neg h]

theorem rstrip_idem (l : List Char) : rstrip (rstrip l) = rstrip l := by
  unfold rstrip
  rw [List.reverse_reverse, dropWhile_isPySpace_idem]

theorem lstrip_head_not_space (l : List Char) (c : Char)
    (h : (lstrip l).head? = some c) : isPySpace c = false := by
  induction l with
  | nil => simp [lstrip] at h
  | cons a t ih =>
    cases ha : isPySpace a with
    | true =>
      unfold lstrip at h ih
      rw [List.dropWhile_cons_of_pos ha] at h
      exact ih h
    | false =>
      unfold lstrip at h
      rw [List.dropWhile_cons_of_neg (by simp [ha])] at h
      obtain rfl : a = c := by simpa using h
      exact ha

theorem rstrip_prefix (l : List Char) : rstrip l <+: l := by
  have h := List.reverse_prefix.mpr (List.dropWhile_suffix (l := l.reverse) isPySpace)
  rwa [List.reverse_reverse] at h

theorem lstrip_rstrip_lstrip (l : List Char) :
    lstrip (rstrip (lstrip l)) = rstrip (lstrip l) := by
  cases hr : rstrip (lstrip l) with
  | nil => rfl
  | cons a t =>
    obtain ⟨r, happ⟩ := rstrip_prefix (lstrip l)
    have hhead : (lstrip l).head? = some a := by
      rw [← happ, hr]; rfl
    have hna := lstrip_head_not_space l a hhead
    unfold lstrip
    rw [List.dropWhile_cons_of_neg (by simp [hna])]

theorem pyStrip_idem (l : List Char) : pyStrip (pyStrip l) = pyStrip l := by
  unfold pyStrip
  rw [lstrip_rstrip_lstrip, rstrip_idem]

theorem rstrip_append_backticks (l : List Char) :
    rstrip (l ++ ['`', '`', '`']) = l ++ ['`', '`', '`'] := by
  unfold rstrip
  rw [List.reverse_append,
    show ((['`', '`', '`'] : List Char).reverse ++ l.reverse) =
      '`' :: '`' :: '`' :: l.reverse from rfl,
    List.dropWhile_cons_of_neg (by decide),
    show ('`' :: '`' :: '`' :: l.reverse) = (['`', '`', '`'] : List Char).reverse ++ l.reverse
      from rfl,
    List.reverse_append, List.reverse_reverse, List.reverse_reverse]

theorem rstrip_append_newline (l : List Char) :
    rstrip (l ++ ['\n']) = rstrip l := by
  unfold rstrip
  rw [List.reverse_append,
    show ((['\n'] : List Char).reverse ++ l.reverse) = '\n' :: l.reverse from rfl,
    List.dropWhile_cons_of_pos (by decide)]

theorem pyStrip_sandwich (l : List Char) :
    pyStrip ('\n' :: (l ++ ['\n'])) = pyStrip l := by
  unfold pyStrip lstrip
  rw [List.dropWhile_cons_of_pos (by decide), List.dropWhile_append]
  by_cases he : (List.dropWhile isPySpace l).isEmpty
  · rw [if_pos he, show List.dropWhile isPySpace ['\n'] = [] from rfl,
      List.isEmpty_iff.mp he]
  · rw [if_neg he, rstrip_append_newline]

/-- A string not beginning with ```` ``` ```` does not begin with
```` ```json ```` either. -/
theorem not_startsWith_json_of_not_backticks (l : List Char)
    (h : pyStartsWith "```".data l = false) :
    pyStartsWith "```json".data l = false := by
  cases hj : pyStartsWith "```json".data l with
  | false => rfl
  | true =>
    exfalso
    unfold pyStartsWith at h hj
    have hpre : "```json".data <+: l := List.isPrefixOf_iff_prefix.mp hj
    have hshort : "```".data <+: "```json".data := ⟨"json".data, rfl⟩
    have := List.isPrefixOf_iff_prefix.mpr (hshort.trans hpre)
    rw [h] at this
    cases this

/-- The cleaning step maps a response wrapped in a ```` ```json ```` /
```` ``` ```` fence pair to the same cleaned text as the bare response,
whenever the bare response is not itself fence-delimited. -/
theorem cleanResponse_fenced (s : String)
    (h1 : pyStartsWith "```".data (pyStrip s.data) = false)
    (h2 : pyEndsWith "```".data (pyStrip s.data) = false) :
    cleanResponse ("```json\n" ++ s ++ "\n```").data = cleanResponse s.data := by
  have hA : ("```json\n" ++ s ++ "\n```").data =
      '`' :: '`' :: '`' :: 'j' :: 's' :: 'o' :: 'n' :: '\n' ::
        (s.data ++ ('\n' :: '`' :: '`' :: '`' :: [])) := by
    simp [String.data_append]
  -- stripping the fenced input is the identity
  have f0 : pyStrip ('`' :: '`' :: '`' :: 'j' :: 's' :: 'o' :: 'n' :: '\n' ::
      (s.data ++ ('\n' :: '`' :: '`' :: '`' :: []))) =
      '`' :: '`' :: '`' :: 'j' :: 's' :: 'o' :: 'n' :: '\n' ::
        (s.data ++ ('\n' :: '`' :: '`' :: '`' :: [])) := by
    have hback := rstrip_append_backticks
      ('`' :: '`' :: '`' :: 'j' :: 's' :: 'o' :: 'n' :: '\n' :: (s.data ++ ['\n']))
    unfold pyStrip lstrip
    rw [List.dropWhile_cons_of_neg (by decide)]
    calc rstrip ('`' :: '`' :: '`' :: 'j' :: 's' :: 'o' :: 'n' :: '\n' ::
          (s.data ++ ('\n' :: '`' :: '`' :: '`' :: [])))
        = rstrip (('`' :: '`' :: '`' :: 'j' :: 's' :: 'o' :: 'n' :: '\n' ::
            (s.data ++ ['\n'])) ++ ['`', '`', '`']) := by simp
      _ = ('`' :: '`' :: '`' :: 'j' :: 's' :: 'o' :: 'n' :: '\n' ::
            (s.data ++ ['\n'])) ++ ['`', '`', '`'] := hback
      _ = '`' :: '`' :: '`' :: 'j' :: 's' :: 'o' :: 'n' :: '\n' ::
            (s.data ++ ('\n' :: '`' :: '`' :: '`' :: [])) := by simp
  -- the fence-stripped middle ends with the closing backticks
  have f3 : pyEndsWith "```".data ('\n' :: (s.data ++ ('\n' :: '`' :: '`' :: '`' :: []))) =
      true := by
    unfold pyEndsWith
    rw [show ('\n' :: (s.data ++ ('\n' :: '`' :: '`' :: '`' :: []))).reverse =
      '`' :: '`' :: '`' :: '\n' :: (s.data.reverse ++ ['\n']) from by simp]
    rfl
  -- dropping the final three backticks
  have f4 : ('\n' :: (s.data ++ ('\n' :: '`' :: '`' :: '`' :: []))).take
      (('\n' :: (s.data ++ ('\n' :: '`' :: '`' :: '`' :: []))).length - 3) =
      '\n' :: (s.data ++ ['\n']) := by
    rw [show ('\n' :: (s.data ++ ('\n' :: '`' :: '`' :: '`' :: []))) =
      ('\n' :: (s.data ++ ['\n'])) ++ ['`', '`', '`'] from by simp]
    apply List.take_left'
    simp [List.length_append]
  have h1' := not_startsWith_json_of_not_backticks _ h1
  have hL : cleanResponse ("```json\n" ++ s ++ "\n```").data = pyStrip s.data := by
    simp only [cleanResponse, hA, f0]
    rw [if_pos (show pyStartsWith "```json".data ('`' :: '`' :: '`' :: 'j' :: 's' :: 'o' ::
      'n' :: '\n' :: (s.data ++ ('\n' :: '`' :: '`' :: '`' :: []))) = true from rfl)]
    rw [show ('`' :: '`' :: '`' :: 'j' :: 's' :: 'o' :: 'n' :: '\n' ::
      (s.data ++ ('\n' :: '`' :: '`' :: '`' :: []))).drop 7 =
      '\n' :: (s.data ++ ('\n' :: '`' :: '`' :: '`' :: [])) from rfl]
    rw [if_neg (show ¬ pyStartsWith "```".data ('\n' ::
      (s.data ++ ('\n' :: '`' :: '`' :: '`' :: []))) = true from by
        rw [show pyStartsWith "```".data ('\n' ::
          (s.data ++ ('\n' :: '`' :: '`' :: '`' :: []))) = false from rfl]
        exact Bool.false_ne_true)]
    rw [if_pos f3, f4]
    exact pyStrip_sandwich s.data
  have hR : cleanResponse s.data = pyStrip s.data := by
    unfold cleanResponse
    dsimp only
    rw [if_neg (show ¬ pyStartsWith "```json".data (pyStrip s.data) = true from by
        rw [h1']; exact Bool.false_ne_true),
      if_neg (show ¬ pyStartsWith "```".data (pyStrip s.data) = true from by
        rw [h1]; exact Bool.false_ne_true),
      if_neg (show ¬ pyEndsWith "```".data (pyStrip s.data) = true from by
        rw [h2]; exact Bool.false_ne_true)]
    exact pyStrip_idem s.data
  rw [hL, hR]

/-- The decode-error result carries the cleaned response text in
`raw_response` whenever that text is nonempty. -/
theorem decodeError_raw_response (e : String) (cleaned : List Char)
    (hne : cleaned ≠ []) :
    (decodeError e cleaned).getStr "raw_response" = some (String.mk cleaned) := by
  have hie : cleaned.isEmpty = false := List.isEmpty_eq_false.mpr hne
  unfold Json.getStr
  rw [show (decodeError e cleaned).get "raw_response" =
    some (.str (if cleaned.isEmpty then "N/A" else String.mk cleaned)) from rfl, hie]
  simp

/-- C7 (amended): the response normalization tolerates a surrounding
```` ```json ````/```` ``` ```` fence pair — analyzing the fenced text equals
analyzing the bare text — and every input whose cleaned text fails to decode
yields the error shape carrying that cleaned text in `raw_response`, never a
fabricated verdict; leading explanatory prose before the payload, however,
is **not** tolerated (see the counterexample). -/
theorem analyze_fence_tolerance (text : String) (tpl : DocumentTemplate) (s : String)
    (h1 : pyStartsWith "```".data (pyStrip s.data) = false)
    (h2 : pyEndsWith "```".data (pyStrip s.data) = false) :
    analyze text tpl (.text ("```json\n" ++ s ++ "\n```")) = analyze text tpl (.text s) ∧
    (∀ raw e, jsonLoads (cleanResponse raw.data) = .error e →
      cleanResponse raw.data ≠ [] →
      (analyze text tpl (.text raw)).getStr "raw_response" =
        some (String.mk (cleanResponse raw.data)) ∧
      errorShaped (analyze text tpl (.text raw))) := by
  constructor
  · simp only [analyze]
    rw [cleanResponse_fenced s h1 h2]
  · intro raw e hp hne
    simp only [analyze]
    rw [hp]
    exact ⟨decodeError_raw_response e _ hne, errorShaped_decodeError e _⟩

/-- Witness for C7: the fenced version of the concrete response `c1raw`
analyzes identically to the bare one, and a non-JSON text produces the
`raw_response`-carrying error shape. -/
theorem analyze_fence_tolerance_witness :
    analyze "doc" TEMPLATE_CHIMIE (.text ("```json\n" ++ c1raw ++ "\n```")) =
      analyze "doc" TEMPLATE_CHIMIE (.text c1raw) ∧
    (analyze "doc" TEMPLATE_CHIMIE (.text "Voici")).getStr "raw_response" =
      some (String.mk (cleanResponse "Voici".data)) ∧
    errorShaped (analyze "doc" TEMPLATE_CHIMIE (.text "Voici")) :=
  have h := analyze_fence_tolerance "doc" TEMPLATE_CHIMIE c1raw rfl rfl
  have hm := h.2 "Voici" "Expecting value" rfl (by decide)
  ⟨h.1, hm.1, hm.2⟩

/-- C7 counterexample: a response with explanatory prose before a valid JSON
payload is **not** decoded: `analyze` returns the decode-error shape
(`NON_CONFORME`, empty points) with the prose-bearing text in
`raw_response`, even though the embedded payload claims `CONFORME`. -/
theorem analyze_prose_not_tolerated :
    (analyze "doc" TEMPLATE_CHIMIE (.text c7raw)).getStr "error" =
      some "Format de réponse invalide: Expecting value" ∧
    (analyze "doc" TEMPLATE_CHIMIE (.text c7raw)).getStr "global_status" =
      some "NON_CONFORME" ∧
    (analyze "doc" TEMPLATE_CHIMIE (.text c7raw)).getArr "points" = some [] ∧
    (analyze "doc" TEMPLATE_CHIMIE (.text c7raw)).getStr "raw_response" = some c7raw :=
  ⟨rfl, rfl, rfl, rfl⟩

end PdfAnalyze
